import Mathlib

/-!
Verification development for the python-demetriek repository: a client
library for LaMetric TIME devices (local device HTTP API) and the LaMetric
cloud API.  The definitions below are a shallow embedding of the code in
src/demetriek: the request/retry/error-classification helpers of
device.py and cloud.py, the exception taxonomy of exceptions.py, the
sound-category inference and the wire (de)serialization of models.py, and
the notification-queue dismissal loops of device.py.
-/

set_option autoImplicit false

namespace Demetriek

/-- A JSON value tree, the shape of request and response bodies.  Numbers are
modelled as integers: none of the verified code performs numeric computation
on JSON payloads, it only moves values between keys. -/
inductive Json where
  | null : Json
  | bool : Bool → Json
  | num : Int → Json
  | str : String → Json
  | arr : List Json → Json
  | obj : List (String × Json) → Json

/-- The exception taxonomy of exceptions.py.  `lametricError` is the generic
LaMetricError (optionally carrying the HTTP status and a message payload),
and the remaining constructors are its subclasses LaMetricConnectionError,
LaMetricAuthenticationError, and LaMetricConnectionTimeoutError. -/
inductive LaMetricException where
  | lametricError (status : Option Nat) (message : String)
  | connectionError (message : String)
  | authenticationError (message : String)
  | connectionTimeoutError (message : String)
deriving DecidableEq, Repr

/-- Python `isinstance(e, LaMetricConnectionError)`: true for
LaMetricConnectionError and its subclass LaMetricConnectionTimeoutError.
This is the exception class the backoff decorator retries on. -/
def LaMetricException.isConnectionError : LaMetricException → Bool
  | .connectionError _ => true
  | .connectionTimeoutError _ => true
  | _ => false

/-- Python `isinstance(e, LaMetricConnectionTimeoutError)`. -/
def LaMetricException.isTimeoutError : LaMetricException → Bool
  | .connectionTimeoutError _ => true
  | _ => false

/-- Python `isinstance(e, LaMetricAuthenticationError)`. -/
def LaMetricException.isAuthError : LaMetricException → Bool
  | .authenticationError _ => true
  | _ => false

/-- What one HTTP attempt inside the `async with async_timeout.timeout(...)`
block can produce, as seen by the `try` of `_request`:

* `timeout`: the per-attempt timeout expired (`asyncio.TimeoutError`);
* `responseError status`: the server answered with a non-2xx status, which
  `raise_for_status=True` turns into `aiohttp.ClientResponseError`;
* `connectFailure`: any other `aiohttp.ClientError` or `socket.gaierror`
  (DNS failure, connection refused or reset);
* `success status contentType bodyText json`: a 2xx response with its
  Content-Type header, raw body text, and decoded JSON body. -/
inductive AttemptOutcome where
  | timeout : AttemptOutcome
  | responseError (status : Nat) : AttemptOutcome
  | connectFailure : AttemptOutcome
  | success (status : Nat) (contentType : String) (bodyText : String)
      (json : Json) : AttemptOutcome

/-- Connection-level failures: the outcomes whose handlers raise a
LaMetricConnectionError (or its timeout subclass). -/
def AttemptOutcome.isConnFailure : AttemptOutcome → Bool
  | .timeout => true
  | .connectFailure => true
  | _ => false

/-- Substring test on the character lists of two strings. -/
def charsHaveSub (needle : List Char) : List Char → Bool
  | [] => needle.isEmpty
  | c :: rest => needle.isPrefixOf (c :: rest) || charsHaveSub needle rest

/-- Python `needle in haystack` on strings, used by the content-type check
`"application/json" not in content_type`. -/
def strContains (haystack needle : String) : Bool :=
  charsHaveSub needle.toList haystack.toList

/-- One attempt of `LaMetricDevice._request` (device.py, the `try` body and
its `except` clauses): classify the attempt outcome into a parsed JSON body
or a raised exception.

* `asyncio.TimeoutError` becomes LaMetricConnectionTimeoutError;
* `aiohttp.ClientResponseError` with status 401 or 403 becomes
  LaMetricAuthenticationError, any other status becomes the generic
  LaMetricError (this handler comes before the ClientError handler, so a
  non-2xx response is never treated as a connection failure);
* other `aiohttp.ClientError` or `socket.gaierror` becomes
  LaMetricConnectionError;
* a 2xx response whose Content-Type does not contain "application/json"
  becomes a generic LaMetricError carrying the status and raw body text;
* otherwise the decoded JSON body is returned. -/
def deviceAttempt (host : String) : AttemptOutcome → Except LaMetricException Json
  | .timeout =>
      .error (.connectionTimeoutError
        ("Timeout occurred while connecting to the LaMetric device at " ++ host))
  | .responseError status =>
      if status = 401 ∨ status = 403 then
        .error (.authenticationError
          ("Authentication to the LaMetric device at " ++ host ++ " failed"))
      else
        .error (.lametricError none
          ("Error occurred while connecting to the LaMetric device at " ++ host))
  | .connectFailure =>
      .error (.connectionError
        ("Error occurred while communicating with the LaMetric device at " ++ host))
  | .success status contentType bodyText json =>
      if strContains contentType "application/json" then .ok json
      else .error (.lametricError (some status) bodyText)

/-- One attempt of `LaMetricCloud._request` (cloud.py).  Unlike the device
client, cloud.py has no dedicated handler for `aiohttp.ClientResponseError`;
since that class is a subclass of `aiohttp.ClientError`, a non-2xx response
falls into the `(aiohttp.ClientError, socket.gaierror)` handler and becomes
a LaMetricConnectionError. -/
def cloudAttempt : AttemptOutcome → Except LaMetricException Json
  | .timeout =>
      .error (.connectionTimeoutError
        "Timeout occurred while connecting to the LaMetric cloud")
  | .responseError _ =>
      .error (.connectionError
        "Error occurred while communicating with the LaMetric cloud")
  | .connectFailure =>
      .error (.connectionError
        "Error occurred while communicating with the LaMetric cloud")
  | .success status contentType bodyText json =>
      if strContains contentType "application/json" then .ok json
      else .error (.lametricError (some status) bodyText)

/-- The `@backoff.on_exception(backoff.expo, LaMetricConnectionError,
max_tries=3)` decorator: run attempt `i`; if it raises an exception that is
an instance of LaMetricConnectionError and retries remain, wait (backoff
delay, not modelled: it only affects timing) and run the next attempt;
otherwise surface the result.  Returns the final result together with the
number of attempts performed.  `remaining` counts the retries still
allowed after the current attempt. -/
def backoffRun (attempt : Nat → Except LaMetricException Json) :
    Nat → Nat → Except LaMetricException Json × Nat
  | i, 0 => (attempt i, i + 1)
  | i, remaining + 1 =>
      match attempt i with
      | .ok v => (.ok v, i + 1)
      | .error e =>
          if e.isConnectionError then backoffRun attempt (i + 1) remaining
          else (.error e, i + 1)

/-- A full `LaMetricDevice._request` call: up to 3 total attempts
(max_tries=3, so 2 retries after the first attempt), driven by the sequence
of transport outcomes `attempts`. -/
def deviceRequest (host : String) (attempts : Nat → AttemptOutcome) :
    Except LaMetricException Json × Nat :=
  backoffRun (fun i => deviceAttempt host (attempts i)) 0 2

/-- A full `LaMetricCloud._request` call: up to 3 total attempts. -/
def cloudRequest (attempts : Nat → AttemptOutcome) :
    Except LaMetricException Json × Nat :=
  backoffRun (fun i => cloudAttempt (attempts i)) 0 2

/-- `data.get(key)` on a decoded JSON payload. -/
def pyDictGet (j : Json) (key : String) : Option Json :=
  match j with
  | .obj kvs => kvs.lookup key
  | _ => none

/-- `errors[0]["message"]` as read by `raise_on_data_error`.  On a payload
whose errors value is not a non-empty array of objects with a string
"message", the Python expression would itself raise (IndexError/KeyError);
that shape never occurs in the verified statements, and is mapped to the
empty string here. -/
def firstErrorMessage : Json → String
  | .arr (Json.obj kvs :: _) =>
      match kvs.lookup "message" with
      | some (Json.str m) => m
      | _ => ""
  | _ => ""

/-- `exceptions.raise_on_data_error(host, data, raising_exception)`: returns
the exception the helper raises, if any.  If `data.get("errors")` is None
(key missing, or decoded JSON null) it raises nothing; otherwise it raises
an authentication error when the original response status was 401 or 403,
and the generic error carrying the first error message otherwise.  Note
that no module under src/demetriek ever calls this helper. -/
def raise_on_data_error (host : String) (data : Json) (status : Nat) :
    Option LaMetricException :=
  match pyDictGet data "errors" with
  | none => none
  | some Json.null => none
  | some errors =>
      if status = 401 ∨ status = 403 then
        some (.authenticationError
          ("Authentication to the LaMetric device at " ++ host ++ " failed"))
      else
        some (.lametricError none
          ("Error occurred while communicating with the LaMetric device at "
            ++ host ++ ": " ++ firstErrorMessage errors))

example :
    deviceRequest "h" (fun _ => AttemptOutcome.timeout) =
      (.error (.connectionTimeoutError
        "Timeout occurred while connecting to the LaMetric device at h"), 3) := by
  rfl

example :
    deviceRequest "h" (fun _ => AttemptOutcome.responseError 404) =
      (.error (.lametricError none
        "Error occurred while connecting to the LaMetric device at h"), 1) := by
  rfl

example :
    cloudRequest (fun _ => AttemptOutcome.responseError 404) =
      (.error (.connectionError
        "Error occurred while communicating with the LaMetric cloud"), 3) := by
  rfl

example :
    deviceRequest "h"
      (fun i => if i < 2 then AttemptOutcome.connectFailure
        else AttemptOutcome.success 200 "application/json" "" (Json.obj [])) =
      (.ok (Json.obj []), 3) := by
  rfl

theorem backoffRun_zero (f : Nat → Except LaMetricException Json) (i : Nat) :
    backoffRun f i 0 = (f i, i + 1) := rfl

theorem backoffRun_connStep (f : Nat → Except LaMetricException Json)
    (i rem : Nat) (e : LaMetricException) (hf : f i = .error e)
    (hc : e.isConnectionError = true) :
    backoffRun f i (rem + 1) = backoffRun f (i + 1) rem := by
  simp [backoffRun, hf, hc]

theorem backoffRun_stop (f : Nat → Except LaMetricException Json)
    (i rem : Nat) (e : LaMetricException) (hf : f i = .error e)
    (hc : e.isConnectionError = false) :
    backoffRun f i (rem + 1) = (.error e, i + 1) := by
  simp [backoffRun, hf, hc]

theorem backoffRun_ok (f : Nat → Except LaMetricException Json)
    (i rem : Nat) (v : Json) (hf : f i = .ok v) :
    backoffRun f i (rem + 1) = (.ok v, i + 1) := by
  simp [backoffRun, hf]

theorem backoffRun_error_src (f : Nat → Except LaMetricException Json) :
    ∀ rem i e, (backoffRun f i rem).1 = .error e → ∃ j, f j = .error e := by
  intro rem
  induction rem with
  | zero => intro i e h; exact ⟨i, h⟩
  | succ rem ih =>
      intro i e h
      match hf : f i with
      | .ok v => rw [backoffRun_ok f i rem v hf] at h; exact absurd h (by simp)
      | .error e0 =>
          by_cases hc : e0.isConnectionError = true
          · rw [backoffRun_connStep f i rem e0 hf hc] at h
            exact ih (i + 1) e h
          · rw [backoffRun_stop f i rem e0 hf (by simpa using hc)] at h
            simp at h
            exact ⟨i, h ▸ hf⟩

theorem deviceAttempt_connFailure (host : String) (o : AttemptOutcome)
    (h : o.isConnFailure = true) :
    ∃ e, deviceAttempt host o = .error e ∧ e.isConnectionError = true ∧
      (e.isTimeoutError = true ↔ o = .timeout) := by
  cases o with
  | timeout =>
      exact ⟨_, rfl, rfl, by simp [LaMetricException.isTimeoutError]⟩
  | connectFailure =>
      refine ⟨_, rfl, rfl, ?_⟩
      simp [LaMetricException.isTimeoutError]
  | responseError s => simp [AttemptOutcome.isConnFailure] at h
  | success st ct body js => simp [AttemptOutcome.isConnFailure] at h

theorem cloudAttempt_connFailure (o : AttemptOutcome)
    (h : o.isConnFailure = true) :
    ∃ e, cloudAttempt o = .error e ∧ e.isConnectionError = true ∧
      (e.isTimeoutError = true ↔ o = .timeout) := by
  cases o with
  | timeout =>
      exact ⟨_, rfl, rfl, by simp [LaMetricException.isTimeoutError]⟩
  | connectFailure =>
      refine ⟨_, rfl, rfl, ?_⟩
      simp [LaMetricException.isTimeoutError]
  | responseError s => simp [AttemptOutcome.isConnFailure] at h
  | success st ct body js => simp [AttemptOutcome.isConnFailure] at h

theorem deviceAttempt_responseError_not_conn (host : String) (s : Nat) :
    ∃ e, deviceAttempt host (.responseError s) = .error e ∧
      e.isConnectionError = false := by
  by_cases h : s = 401 ∨ s = 403 <;>
    simp [deviceAttempt, h, LaMetricException.isConnectionError]

theorem cloudAttempt_responseError (s : Nat) :
    cloudAttempt (.responseError s) =
      .error (.connectionError
        "Error occurred while communicating with the LaMetric cloud") := rfl

theorem cloudAttempt_never_auth (o : AttemptOutcome) (e : LaMetricException)
    (h : cloudAttempt o = .error e) : e.isAuthError = false := by
  cases o with
  | timeout => simp [cloudAttempt] at h; simp [← h, LaMetricException.isAuthError]
  | responseError s => simp [cloudAttempt] at h; simp [← h, LaMetricException.isAuthError]
  | connectFailure => simp [cloudAttempt] at h; simp [← h, LaMetricException.isAuthError]
  | success st ct body js =>
      by_cases hct : strContains ct "application/json" = true
      · simp [cloudAttempt, hct] at h
      · rw [cloudAttempt] at h
        simp only [Bool.not_eq_true] at hct
        rw [hct] at h
        simp at h
        simp [← h, LaMetricException.isAuthError]

theorem backoffRun_stops_at (f : Nat → Except LaMetricException Json) (i : Nat)
    (hi : i < 3) (r : Except LaMetricException Json)
    (hprev : ∀ j, j < i → ∃ e, f j = .error e ∧ e.isConnectionError = true)
    (hstop : f i = r)
    (hnr : ∀ e, r = .error e → e.isConnectionError = false ∨ i = 2) :
    backoffRun f 0 2 = (r, i + 1) := by
  match i, hi with
  | 0, _ =>
      match r, hstop with
      | .ok v, h => exact backoffRun_ok f 0 1 v h
      | .error e, h =>
          rcases hnr e rfl with hc | h2
          · exact backoffRun_stop f 0 1 e h hc
          · exact absurd h2 (by omega)
  | 1, _ =>
      obtain ⟨e0, he0, hc0⟩ := hprev 0 (by omega)
      rw [backoffRun_connStep f 0 1 e0 he0 hc0]
      match r, hstop with
      | .ok v, h => exact backoffRun_ok f 1 0 v h
      | .error e, h =>
          rcases hnr e rfl with hc | h2
          · exact backoffRun_stop f 1 0 e h hc
          · exact absurd h2 (by omega)
  | 2, _ =>
      obtain ⟨e0, he0, hc0⟩ := hprev 0 (by omega)
      obtain ⟨e1, he1, hc1⟩ := hprev 1 (by omega)
      rw [backoffRun_connStep f 0 1 e0 he0 hc0,
        backoffRun_connStep f 1 0 e1 he1 hc1, backoffRun_zero, hstop]

/-- C1, counterexample to the claim as stated: through the cloud client, an
HTTP error response (status 404 on every attempt) IS retried: the call makes
3 attempts and surfaces a connection error, because
aiohttp.ClientResponseError is a subclass of aiohttp.ClientError and
cloud.py has no dedicated handler for it. -/
theorem c1_cloud_retries_http_counterexample :
    cloudRequest (fun _ => AttemptOutcome.responseError 404) =
      (.error (.connectionError
        "Error occurred while communicating with the LaMetric cloud"), 3) ∧
    (LaMetricException.connectionError
      "Error occurred while communicating with the LaMetric cloud").isConnectionError
      = true := ⟨rfl, rfl⟩

/-- C1 (amended): for requests issued through the request helper,
(1) if all 3 attempts fail at connection level, both clients make exactly 3
attempts and surface a connection error, the timeout sub-kind exactly when
the last failing attempt was a timeout; (2) connection-level failures before
a success are retried and the successful JSON result is surfaced;
(3) the DEVICE client never retries a non-2xx HTTP response: the request
ends at that attempt with the HTTP-mapped error, which is not a connection
error; (4) the CLOUD client classifies a non-2xx response as a connection
failure: with non-2xx responses on all attempts it makes 3 attempts and
surfaces a connection error. -/
theorem c1_retry_policy (host : String) (attempts : Nat → AttemptOutcome) :
    ((∀ i, i < 3 → (attempts i).isConnFailure = true) →
      ((deviceRequest host attempts).2 = 3 ∧
        ∃ e, (deviceRequest host attempts).1 = .error e ∧
          e.isConnectionError = true ∧
          (e.isTimeoutError = true ↔ attempts 2 = .timeout)) ∧
      ((cloudRequest attempts).2 = 3 ∧
        ∃ e, (cloudRequest attempts).1 = .error e ∧
          e.isConnectionError = true ∧
          (e.isTimeoutError = true ↔ attempts 2 = .timeout))) ∧
    (∀ i st ct body js, i < 3 →
      (∀ j, j < i → (attempts j).isConnFailure = true) →
      attempts i = .success st ct body js →
      strContains ct "application/json" = true →
      deviceRequest host attempts = (.ok js, i + 1) ∧
      cloudRequest attempts = (.ok js, i + 1)) ∧
    (∀ i s, i < 3 →
      (∀ j, j < i → (attempts j).isConnFailure = true) →
      attempts i = .responseError s →
      deviceRequest host attempts =
        (deviceAttempt host (.responseError s), i + 1) ∧
      ∀ e, deviceAttempt host (.responseError s) = .error e →
        e.isConnectionError = false) ∧
    ((∀ i, i < 3 → ∃ s, attempts i = .responseError s) →
      cloudRequest attempts =
        (.error (.connectionError
          "Error occurred while communicating with the LaMetric cloud"), 3)) := by
  refine ⟨?_, ?_, ?_, ?_⟩
  · intro h
    constructor
    · obtain ⟨e2, he2, hc2, ht2⟩ :=
        deviceAttempt_connFailure host (attempts 2) (h 2 (by omega))
      have hrun : deviceRequest host attempts = (.error e2, 3) :=
        backoffRun_stops_at _ 2 (by omega) _
          (fun j hj => by
            obtain ⟨e, he, hc, _⟩ :=
              deviceAttempt_connFailure host (attempts j) (h j (by omega))
            exact ⟨e, he, hc⟩)
          he2 (fun e _ => Or.inr rfl)
      rw [hrun]
      exact ⟨rfl, e2, rfl, hc2, ht2⟩
    · obtain ⟨e2, he2, hc2, ht2⟩ :=
        cloudAttempt_connFailure (attempts 2) (h 2 (by omega))
      have hrun : cloudRequest attempts = (.error e2, 3) :=
        backoffRun_stops_at _ 2 (by omega) _
          (fun j hj => by
            obtain ⟨e, he, hc, _⟩ :=
              cloudAttempt_connFailure (attempts j) (h j (by omega))
            exact ⟨e, he, hc⟩)
          he2 (fun e _ => Or.inr rfl)
      rw [hrun]
      exact ⟨rfl, e2, rfl, hc2, ht2⟩
  · intro i st ct body js hi hprev hsucc hct
    have hdev : deviceAttempt host (attempts i) = .ok js := by
      rw [hsucc]; simp [deviceAttempt, hct]
    have hcl : cloudAttempt (attempts i) = .ok js := by
      rw [hsucc]; simp [cloudAttempt, hct]
    constructor
    · exact backoffRun_stops_at _ i hi _
        (fun j hj => by
          obtain ⟨e, he, hc, _⟩ :=
            deviceAttempt_connFailure host (attempts j) (hprev j hj)
          exact ⟨e, he, hc⟩)
        hdev (fun e h => by exact Except.noConfusion h)
    · exact backoffRun_stops_at _ i hi _
        (fun j hj => by
          obtain ⟨e, he, hc, _⟩ :=
            cloudAttempt_connFailure (attempts j) (hprev j hj)
          exact ⟨e, he, hc⟩)
        hcl (fun e h => by exact Except.noConfusion h)
  · intro i s hi hprev hresp
    obtain ⟨e, he, hc⟩ := deviceAttempt_responseError_not_conn host s
    constructor
    · refine backoffRun_stops_at _ i hi _
        (fun j hj => by
          obtain ⟨e0, he0, hc0, _⟩ :=
            deviceAttempt_connFailure host (attempts j) (hprev j hj)
          exact ⟨e0, he0, hc0⟩)
        (by rw [hresp]) ?_
      intro e0 h0
      left
      rw [he] at h0
      injection h0 with h1
      exact h1 ▸ hc
    · intro e0 h0
      rw [he] at h0
      injection h0 with h1
      exact h1 ▸ hc
  · intro h
    obtain ⟨s2, hs2⟩ := h 2 (by omega)
    refine backoffRun_stops_at _ 2 (by omega) _
      (fun j hj => by
        obtain ⟨s, hs⟩ := h j (by omega)
        exact ⟨LaMetricException.connectionError
          "Error occurred while communicating with the LaMetric cloud",
          by rw [hs]; rfl, rfl⟩)
      (by rw [hs2]; rfl) (fun e _ => Or.inr rfl)

theorem c1_retry_policy_witness :
    (deviceRequest "device.example" (fun _ => AttemptOutcome.timeout)).2 = 3 ∧
    (cloudRequest (fun _ => AttemptOutcome.timeout)).2 = 3 := by
  have h := (c1_retry_policy "device.example" (fun _ => AttemptOutcome.timeout)).1
    (fun i _ => rfl)
  exact ⟨h.1.1, h.2.1⟩

/-- C2: through the device client, a 401 or 403 response raises the
authentication error; any other non-2xx response raises the generic
LaMetricError, which is neither a connection error nor an authentication
error; a 2xx response whose content type is not JSON raises a generic
error carrying the status and the raw response body text.  None of these
is retried: the request ends after the single attempt. -/
theorem c2_device_http_error_mapping (host : String)
    (attempts : Nat → AttemptOutcome) :
    (∀ s, attempts 0 = .responseError s → (s = 401 ∨ s = 403) →
      deviceRequest host attempts =
        (.error (.authenticationError
          ("Authentication to the LaMetric device at " ++ host ++ " failed")),
          1)) ∧
    (∀ s, attempts 0 = .responseError s → ¬(s = 401 ∨ s = 403) →
      deviceRequest host attempts =
        (.error (.lametricError none
          ("Error occurred while connecting to the LaMetric device at "
            ++ host)), 1) ∧
      (LaMetricException.lametricError none
        ("Error occurred while connecting to the LaMetric device at "
          ++ host)).isConnectionError = false ∧
      (LaMetricException.lametricError none
        ("Error occurred while connecting to the LaMetric device at "
          ++ host)).isAuthError = false) ∧
    (∀ st ct body js, attempts 0 = .success st ct body js →
      strContains ct "application/json" = false →
      deviceRequest host attempts =
        (.error (.lametricError (some st) body), 1)) := by
  refine ⟨?_, ?_, ?_⟩
  · intro s h0 hs
    exact backoffRun_stop _ 0 1 _ (by rw [h0]; simp [deviceAttempt, hs]) rfl
  · intro s h0 hs
    refine ⟨?_, rfl, rfl⟩
    exact backoffRun_stop _ 0 1 _ (by rw [h0]; simp [deviceAttempt, hs]) rfl
  · intro st ct body js h0 hct
    exact backoffRun_stop _ 0 1 _ (by rw [h0]; simp [deviceAttempt, hct]) rfl

theorem c2_device_http_error_mapping_witness :
    deviceRequest "h" (fun _ => AttemptOutcome.responseError 401) =
      (.error (.authenticationError
        "Authentication to the LaMetric device at h failed"), 1) ∧
    deviceRequest "h" (fun _ => AttemptOutcome.responseError 500) =
      (.error (.lametricError none
        "Error occurred while connecting to the LaMetric device at h"), 1) ∧
    deviceRequest "h"
        (fun _ => AttemptOutcome.success 200 "text/html" "Oh hi!" Json.null) =
      (.error (.lametricError (some 200) "Oh hi!"), 1) := by
  refine ⟨?_, ?_, ?_⟩
  · exact (c2_device_http_error_mapping "h"
      (fun _ => AttemptOutcome.responseError 401)).1 401 rfl (Or.inl rfl)
  · exact ((c2_device_http_error_mapping "h"
      (fun _ => AttemptOutcome.responseError 500)).2.1 500 rfl (by omega)).1
  · exact (c2_device_http_error_mapping "h"
      (fun _ => AttemptOutcome.success 200 "text/html" "Oh hi!" Json.null)).2.2
      200 "text/html" "Oh hi!" Json.null rfl (by decide)

/-- C3, counterexample to the claim as stated: a non-2xx cloud response
(status 500 on every attempt) is NOT mapped to the generic error built from
the response body; it is classified as a connection error and retried (3
attempts). -/
theorem c3_cloud_nonsuccess_counterexample :
    cloudRequest (fun _ => AttemptOutcome.responseError 500) =
      (.error (.connectionError
        "Error occurred while communicating with the LaMetric cloud"), 3) ∧
    (LaMetricException.connectionError
      "Error occurred while communicating with the LaMetric cloud").isConnectionError
      = true := ⟨rfl, rfl⟩

/-- C3 (amended): the cloud client classifies every non-2xx response as a
(retried) connection error and never raises an authentication error; its
only generic-error path is a 2xx response with a non-JSON content type.
The helper `raise_on_data_error` in exceptions.py would map a response
payload carrying an "errors" array to an authentication error when the
status is 401/403 (and to a generic error otherwise), but no code in
src/demetriek invokes it. -/
theorem c3_cloud_error_paths (attempts : Nat → AttemptOutcome) (host : String)
    (data errors : Json) (status : Nat) :
    ((∀ i, i < 3 → ∃ s, attempts i = .responseError s) →
      cloudRequest attempts =
        (.error (.connectionError
          "Error occurred while communicating with the LaMetric cloud"), 3)) ∧
    (∀ e, (cloudRequest attempts).1 = .error e → e.isAuthError = false) ∧
    (∀ st ct body js, attempts 0 = .success st ct body js →
      strContains ct "application/json" = false →
      cloudRequest attempts = (.error (.lametricError (some st) body), 1)) ∧
    (pyDictGet data "errors" = some errors → errors ≠ Json.null →
      (status = 401 ∨ status = 403) →
      raise_on_data_error host data status =
        some (.authenticationError
          ("Authentication to the LaMetric device at " ++ host ++ " failed"))) ∧
    (pyDictGet data "errors" = none →
      raise_on_data_error host data status = none) := by
  refine ⟨?_, ?_, ?_, ?_, ?_⟩
  · intro h
    obtain ⟨s2, hs2⟩ := h 2 (by omega)
    refine backoffRun_stops_at _ 2 (by omega) _
      (fun j hj => by
        obtain ⟨s, hs⟩ := h j (by omega)
        exact ⟨LaMetricException.connectionError
          "Error occurred while communicating with the LaMetric cloud",
          by rw [hs]; rfl, rfl⟩)
      (by rw [hs2]; rfl) (fun e _ => Or.inr rfl)
  · intro e h
    obtain ⟨j, hj⟩ := backoffRun_error_src _ 2 0 e h
    exact cloudAttempt_never_auth (attempts j) e hj
  · intro st ct body js h0 hct
    exact backoffRun_stop _ 0 1 _ (by rw [h0]; simp [cloudAttempt, hct]) rfl
  · intro h hnn hst
    cases errors with
    | null => exact absurd rfl hnn
    | bool b => simp only [raise_on_data_error, h]; rw [if_pos hst]
    | num n => simp only [raise_on_data_error, h]; rw [if_pos hst]
    | str s => simp only [raise_on_data_error, h]; rw [if_pos hst]
    | arr xs => simp only [raise_on_data_error, h]; rw [if_pos hst]
    | obj kvs => simp only [raise_on_data_error, h]; rw [if_pos hst]
  · intro h
    simp [raise_on_data_error, h]

theorem c3_cloud_error_paths_witness :
    cloudRequest (fun _ => AttemptOutcome.responseError 418) =
      (.error (.connectionError
        "Error occurred while communicating with the LaMetric cloud"), 3) ∧
    raise_on_data_error "h" (Json.obj [("errors", Json.arr [])]) 401 =
      some (.authenticationError
        "Authentication to the LaMetric device at h failed") := by
  have h := c3_cloud_error_paths (fun _ => AttemptOutcome.responseError 418)
    "h" (Json.obj [("errors", Json.arr [])]) (Json.arr []) 401
  refine ⟨h.1 (fun i _ => ⟨418, rfl⟩), ?_⟩
  exact h.2.2.2.1 rfl (by simp) (Or.inl rfl)

/-- C4 (code bug, evaluated at the failing input): through the device
client, an HTTP 404 response produces the plain generic LaMetricError after
a single attempt.  src/demetriek has no 404-specific handling at all: the
write endpoints (activate_widget, do_action) let this generic error
propagate instead of an unsupported-feature error, the read endpoint apps()
lets it propagate instead of returning an absent result, and exceptions.py
defines no LaMetricUnsupportedError, although tests/test_widget.py,
tests/test_app.py and tests/test_apps.py import that class and assert
exactly the claimed 404 behavior. -/
theorem c4_device_404_generic_error :
    deviceRequest "127.0.0.2" (fun _ => AttemptOutcome.responseError 404) =
      (.error (.lametricError none
        "Error occurred while connecting to the LaMetric device at 127.0.0.2"),
        1) := rfl

/-! ## models.py and const.py: sounds and category inference -/

/-- const.AlarmSound: the 13 alarm sound identifiers. -/
inductive AlarmSound where
  | ALARM1 | ALARM2 | ALARM3 | ALARM4 | ALARM5 | ALARM6 | ALARM7
  | ALARM8 | ALARM9 | ALARM10 | ALARM11 | ALARM12 | ALARM13
deriving DecidableEq, Fintype

/-- The Python enum value of each AlarmSound member. -/
def AlarmSound.value : AlarmSound → String
  | .ALARM1 => "alarm1"
  | .ALARM2 => "alarm2"
  | .ALARM3 => "alarm3"
  | .ALARM4 => "alarm4"
  | .ALARM5 => "alarm5"
  | .ALARM6 => "alarm6"
  | .ALARM7 => "alarm7"
  | .ALARM8 => "alarm8"
  | .ALARM9 => "alarm9"
  | .ALARM10 => "alarm10"
  | .ALARM11 => "alarm11"
  | .ALARM12 => "alarm12"
  | .ALARM13 => "alarm13"

/-- const.NotificationSound: the 35 notification sound identifiers
(member names as written in const.py, including the NETGATIVE typos). -/
inductive NotificationSound where
  | BICYCLE | CAR | CASH | CAT | DOG | DOG2 | ENERGY | KNOCK_KNOCK
  | LETTER_EMAIL | LOSE1 | LOSE2 | NETGATIVE1 | NETGATIVE2 | NETGATIVE3
  | NETGATIVE4 | NETGATIVE5 | NOTIFICATION | NOTIFICATION2 | NOTIFICATION3
  | NOTIFICATION4 | OPEN_DOOR | POSITIVE1 | POSITIVE2 | POSITIVE3
  | POSITIVE4 | POSITIVE5 | POSITIVE6 | STATISTIC | THUNDER | WATER1
  | WATER2 | WIN | WIN2 | WIND | WIND_SHORT
deriving DecidableEq, Fintype

/-- The Python enum value of each NotificationSound member. -/
def NotificationSound.value : NotificationSound → String
  | .BICYCLE => "bicycle"
  | .CAR => "car"
  | .CASH => "cash"
  | .CAT => "cat"
  | .DOG => "dog"
  | .DOG2 => "dog2"
  | .ENERGY => "energy"
  | .KNOCK_KNOCK => "knock-knock"
  | .LETTER_EMAIL => "letter_email"
  | .LOSE1 => "lose1"
  | .LOSE2 => "lose2"
  | .NETGATIVE1 => "negative1"
  | .NETGATIVE2 => "negative2"
  | .NETGATIVE3 => "negative3"
  | .NETGATIVE4 => "negative4"
  | .NETGATIVE5 => "negative5"
  | .NOTIFICATION => "notification"
  | .NOTIFICATION2 => "notification2"
  | .NOTIFICATION3 => "notification3"
  | .NOTIFICATION4 => "notification4"
  | .OPEN_DOOR => "open_door"
  | .POSITIVE1 => "positive1"
  | .POSITIVE2 => "positive2"
  | .POSITIVE3 => "positive3"
  | .POSITIVE4 => "positive4"
  | .POSITIVE5 => "positive5"
  | .POSITIVE6 => "positive6"
  | .STATISTIC => "statistic"
  | .THUNDER => "thunder"
  | .WATER1 => "water1"
  | .WATER2 => "water2"
  | .WIN => "win"
  | .WIN2 => "win2"
  | .WIND => "wind"
  | .WIND_SHORT => "wind_short"

/-- const.NotificationSoundCategory. -/
inductive NotificationSoundCategory where
  | ALARMS | NOTIFICATIONS
deriving DecidableEq, Fintype

def NotificationSoundCategory.value : NotificationSoundCategory → String
  | .ALARMS => "alarms"
  | .NOTIFICATIONS => "notifications"

/-- The values of the AlarmSound enumeration, in definition order. -/
def alarmSoundValues : List String :=
  ["alarm1", "alarm2", "alarm3", "alarm4", "alarm5", "alarm6", "alarm7",
   "alarm8", "alarm9", "alarm10", "alarm11", "alarm12", "alarm13"]

/-- The values of the NotificationSound enumeration, in definition order. -/
def notificationSoundValues : List String :=
  ["bicycle", "car", "cash", "cat", "dog", "dog2", "energy", "knock-knock",
   "letter_email", "lose1", "lose2", "negative1", "negative2", "negative3",
   "negative4", "negative5", "notification", "notification2", "notification3",
   "notification4", "open_door", "positive1", "positive2", "positive3",
   "positive4", "positive5", "positive6", "statistic", "thunder", "water1",
   "water2", "win", "win2", "wind", "wind_short"]

/-- The type of the `sound` field of models.Sound:
`AlarmSound | NotificationSound`. -/
abbrev SoundId := Sum AlarmSound NotificationSound

/-- The wire value of a sound identifier (a str-mixin enum member
serializes as its value). -/
def SoundId.value : SoundId → String
  | .inl a => a.value
  | .inr n => n.value

/-- models.Sound: category is optional (and inferred when left unset),
repeat defaults to 1, and the sound identifier is aliased to wire key
"id". -/
structure Sound where
  category : Option NotificationSoundCategory := none
  «repeat» : Int := 1
  sound : SoundId
deriving DecidableEq

/-- The category inference of `Sound.__post_init__`, starting from an unset
category: two sequential membership tests of the sound value in each
enumeration (Python `self.sound in AlarmSound`, value containment for
str-mixin enums), the second `if` overriding the first. -/
def inferCategory (sound : SoundId) : Option NotificationSoundCategory :=
  let category : Option NotificationSoundCategory := none
  let category := if alarmSoundValues.contains sound.value then
    some NotificationSoundCategory.ALARMS else category
  let category := if notificationSoundValues.contains sound.value then
    some NotificationSoundCategory.NOTIFICATIONS else category
  category

/-- Constructing a `Sound` and running `__post_init__`: an explicitly
supplied category is kept unchanged; an unset category is inferred from the
sound identifier. -/
def mkSound (category : Option NotificationSoundCategory) (rep : Int)
    (sound : SoundId) : Sound :=
  { category := match category with
      | some c => some c
      | none => inferCategory sound,
    «repeat» := rep,
    sound := sound }

/-- C5: constructing a Sound without an explicit category yields category
ALARMS exactly when the identifier belongs to the AlarmSound enumeration
and NOTIFICATIONS exactly when it belongs to the NotificationSound
enumeration; the two cases are mutually exclusive and exhaustive over the
defined identifiers, so the inferred category is always set. -/
theorem c5_sound_category_inference (rep : Int) (s : SoundId) :
    ((mkSound none rep s).category = some NotificationSoundCategory.ALARMS ↔
      s.isLeft = true) ∧
    ((mkSound none rep s).category = some NotificationSoundCategory.NOTIFICATIONS ↔
      s.isRight = true) ∧
    (mkSound none rep s).category ≠ none := by
  show (inferCategory s = some NotificationSoundCategory.ALARMS ↔
      s.isLeft = true) ∧
    (inferCategory s = some NotificationSoundCategory.NOTIFICATIONS ↔
      s.isRight = true) ∧
    inferCategory s ≠ none
  revert s
  decide

theorem c5_sound_category_inference_witness :
    (mkSound none 1 (Sum.inl AlarmSound.ALARM1)).category =
      some NotificationSoundCategory.ALARMS ∧
    (mkSound none 1 (Sum.inr NotificationSound.WIN)).category =
      some NotificationSoundCategory.NOTIFICATIONS :=
  ⟨(c5_sound_category_inference 1 (Sum.inl AlarmSound.ALARM1)).1.mpr rfl,
   (c5_sound_category_inference 1 (Sum.inr NotificationSound.WIN)).2.1.mpr rfl⟩

/-! ## models.py: frames, Model, Notification, and their wire form

The dataclasses use mashumaro.  Relevant per-class configuration:
Chart, Goal and Sound set serialize_by_alias and
allow_deserialization_not_by_alias; Notification sets serialize_by_alias
and omit_none; Simple, GoalData and Model have no Config, so their fields
serialize under their own names and None values are kept as JSON null
(omit_none is a per-class option and does not propagate to nested
dataclasses).  Union-typed fields deserialize by trying each variant in
annotation order and taking the first that succeeds.  datetime values are
carried as their ISO text and the life_time float as its numeric value:
the code only moves these values, it never computes with them. -/

/-- The icon field type `int | str | None` of Simple and Goal frames. -/
abbrev IconValue := Sum Int String

/-- models.Simple: a text frame. -/
structure Simple where
  icon : Option IconValue := none
  text : String
deriving DecidableEq

/-- models.GoalData.  The source field named `end` is written `end_` here
because Lean reserves that word. -/
structure GoalData where
  current : Int
  end_ : Int
  start : Int
  unit : Option String := none
deriving DecidableEq

/-- models.Goal: its data field is aliased to wire key "goalData". -/
structure Goal where
  data : GoalData
  icon : Option IconValue := none
deriving DecidableEq

/-- models.Chart: its data field is aliased to wire key "chartData". -/
structure Chart where
  data : List Int
deriving DecidableEq

/-- The frame union `Chart | Goal | Simple`, in annotation order (which is
also the order the variants are tried during deserialization). -/
inductive Frame where
  | chart : Chart → Frame
  | goal : Goal → Frame
  | simple : Simple → Frame
deriving DecidableEq

/-- models.Model: cycles, the ordered frames, and an optional sound. -/
structure Model where
  cycles : Int := 1
  frames : List Frame
  sound : Option Sound := none
deriving DecidableEq

/-- const.NotificationIconType. -/
inductive NotificationIconType where
  | ALERT | INFO | NONE
deriving DecidableEq

def NotificationIconType.value : NotificationIconType → String
  | .ALERT => "alert"
  | .INFO => "info"
  | .NONE => "none"

/-- const.NotificationPriority. -/
inductive NotificationPriority where
  | CRITICAL | INFO | WARNING
deriving DecidableEq

def NotificationPriority.value : NotificationPriority → String
  | .CRITICAL => "critical"
  | .INFO => "info"
  | .WARNING => "warning"

/-- const.NotificationType. -/
inductive NotificationType where
  | INTERNAL | EXTERNAL
deriving DecidableEq

def NotificationType.value : NotificationType → String
  | .INTERNAL => "internal"
  | .EXTERNAL => "external"

/-- models.Notification: the envelope.  notification_id is aliased to wire
key "id" and notification_type to wire key "type". -/
structure Notification where
  created : Option String := none
  expiration_date : Option String := none
  icon_type : Option NotificationIconType := none
  life_time : Option Int := none
  model : Model
  notification_id : Option Int := none
  notification_type : Option NotificationType := none
  priority : Option NotificationPriority := none
deriving DecidableEq

/-- Serialize an `int | str | None` icon value. -/
def serIcon : Option IconValue → Json
  | none => .null
  | some (.inl n) => .num n
  | some (.inr s) => .str s

/-- Simple.to_dict: no Config, so plain field names and None kept. -/
def Simple.toDict (s : Simple) : Json :=
  .obj [("icon", serIcon s.icon), ("text", .str s.text)]

/-- Chart.to_dict: serialize_by_alias, so the data list appears under
"chartData". -/
def Chart.toDict (c : Chart) : Json :=
  .obj [("chartData", .arr (c.data.map Json.num))]

/-- GoalData.to_dict: no Config, plain field names. -/
def GoalData.toDict (g : GoalData) : Json :=
  .obj [("current", .num g.current), ("end", .num g.end_),
        ("start", .num g.start),
        ("unit", match g.unit with | none => .null | some u => .str u)]

/-- Goal.to_dict: serialize_by_alias, so the nested GoalData appears under
"goalData". -/
def Goal.toDict (g : Goal) : Json :=
  .obj [("goalData", g.data.toDict), ("icon", serIcon g.icon)]

/-- A union-typed frame serializes by the to_dict of its runtime class. -/
def Frame.toDict : Frame → Json
  | .chart c => c.toDict
  | .goal g => g.toDict
  | .simple s => s.toDict

/-- Sound.to_dict: serialize_by_alias, so the sound identifier appears
under "id"; str-mixin enum members serialize as their values. -/
def Sound.toDict (s : Sound) : Json :=
  .obj [("category",
          match s.category with | none => .null | some c => .str c.value),
        ("repeat", .num s.«repeat»),
        ("id", .str s.sound.value)]

/-- Model.to_dict: no Config, so an unset sound is kept as JSON null. -/
def Model.toDict (m : Model) : Json :=
  .obj [("cycles", .num m.cycles),
        ("frames", .arr (m.frames.map Frame.toDict)),
        ("sound", match m.sound with | none => .null | some s => s.toDict)]

/-- One wire entry of an optional envelope field under omit_none: no key at
all when the field is unset. -/
def optField (key : String) : Option Json → List (String × Json)
  | none => []
  | some v => [(key, v)]

/-- Notification.to_dict: serialize_by_alias and omit_none, fields in
definition order. -/
def Notification.toDict (n : Notification) : Json :=
  .obj (optField "created" (n.created.map Json.str) ++
        (optField "expiration_date" (n.expiration_date.map Json.str) ++
        (optField "icon_type" (n.icon_type.map (fun v => Json.str v.value)) ++
        (optField "life_time" (n.life_time.map Json.num) ++
        (("model", n.model.toDict) ::
        (optField "id" (n.notification_id.map Json.num) ++
        (optField "type" (n.notification_type.map (fun v => Json.str v.value)) ++
        optField "priority" (n.priority.map (fun v => Json.str v.value)))))))))

/-! ### Deserialization -/

/-- Deserialize an optional `int | str` icon value. -/
def parseIcon : Option Json → Except String (Option IconValue)
  | none => .ok none
  | some .null => .ok none
  | some (.num n) => .ok (some (.inl n))
  | some (.str s) => .ok (some (.inr s))
  | some _ => .error "invalid icon"

/-- Deserialize an optional string field. -/
def parseOptStr : Option Json → Except String (Option String)
  | none => .ok none
  | some .null => .ok none
  | some (.str s) => .ok (some s)
  | some _ => .error "invalid string"

/-- Deserialize an optional numeric field. -/
def parseOptInt : Option Json → Except String (Option Int)
  | none => .ok none
  | some .null => .ok none
  | some (.num n) => .ok (some n)
  | some _ => .error "invalid number"

/-- Deserialize a required numeric field. -/
def parseInt : Option Json → Except String Int
  | some (.num n) => .ok n
  | some _ => .error "invalid int"
  | none => .error "missing int field"

/-- Deserialize a list of integers (the chart data). -/
def parseIntList : List Json → Except String (List Int)
  | [] => .ok []
  | .num n :: rest =>
      match parseIntList rest with
      | .ok ns => .ok (n :: ns)
      | .error e => .error e
  | _ :: _ => .error "invalid chart data"

/-- Simple.from_dict: text is required, icon optional. -/
def Simple.fromDict (j : Json) : Except String Simple :=
  match pyDictGet j "text", parseIcon (pyDictGet j "icon") with
  | some (.str t), .ok icon => .ok { icon := icon, text := t }
  | some (.str _), .error e => .error e
  | some _, _ => .error "invalid text"
  | none, _ => .error "missing field text"

/-- Chart.from_dict: allow_deserialization_not_by_alias, so the data list
is read from "chartData" and, failing that, from the field name "data". -/
def Chart.fromDict (j : Json) : Except String Chart :=
  match (pyDictGet j "chartData").orElse (fun _ => pyDictGet j "data") with
  | some (.arr xs) =>
      match parseIntList xs with
      | .ok ns => .ok { data := ns }
      | .error e => .error e
  | some _ => .error "invalid chart data"
  | none => .error "missing field chartData"

/-- GoalData.from_dict: current, end and start required, unit optional. -/
def GoalData.fromDict (j : Json) : Except String GoalData :=
  match parseInt (pyDictGet j "current"), parseInt (pyDictGet j "end"),
      parseInt (pyDictGet j "start"), parseOptStr (pyDictGet j "unit") with
  | .ok c, .ok e, .ok s, .ok u =>
      .ok { current := c, end_ := e, start := s, unit := u }
  | .error e, _, _, _ => .error e
  | _, .error e, _, _ => .error e
  | _, _, .error e, _ => .error e
  | _, _, _, .error e => .error e

/-- Goal.from_dict: the GoalData is read from "goalData" and, failing
that, from the field name "data" (allow_deserialization_not_by_alias). -/
def Goal.fromDict (j : Json) : Except String Goal :=
  match (pyDictGet j "goalData").orElse (fun _ => pyDictGet j "data") with
  | some gd =>
      match GoalData.fromDict gd, parseIcon (pyDictGet j "icon") with
      | .ok d, .ok icon => .ok { data := d, icon := icon }
      | .error e, _ => .error e
      | _, .error e => .error e
  | none => .error "missing field goalData"

/-- Deserialize one frame of the union `Chart | Goal | Simple`: try each
variant in annotation order, first success wins. -/
def Frame.fromDict (j : Json) : Except String Frame :=
  match Chart.fromDict j with
  | .ok c => .ok (.chart c)
  | .error _ =>
      match Goal.fromDict j with
      | .ok g => .ok (.goal g)
      | .error _ =>
          match Simple.fromDict j with
          | .ok s => .ok (.simple s)
          | .error e => .error e

/-- Deserialize the frames list elementwise. -/
def parseFrames : List Json → Except String (List Frame)
  | [] => .ok []
  | j :: rest =>
      match Frame.fromDict j with
      | .ok f =>
          match parseFrames rest with
          | .ok fs => .ok (f :: fs)
          | .error e => .error e
      | .error e => .error e

/-- Deserialize the optional sound category by enum value. -/
def parseCategory :
    Option Json → Except String (Option NotificationSoundCategory)
  | none => .ok none
  | some .null => .ok none
  | some (.str "alarms") => .ok (some .ALARMS)
  | some (.str "notifications") => .ok (some .NOTIFICATIONS)
  | some _ => .error "invalid category"

/-- AlarmSound(value): enum member by value. -/
def AlarmSound.ofValue : String → Option AlarmSound
  | "alarm1" => some .ALARM1
  | "alarm2" => some .ALARM2
  | "alarm3" => some .ALARM3
  | "alarm4" => some .ALARM4
  | "alarm5" => some .ALARM5
  | "alarm6" => some .ALARM6
  | "alarm7" => some .ALARM7
  | "alarm8" => some .ALARM8
  | "alarm9" => some .ALARM9
  | "alarm10" => some .ALARM10
  | "alarm11" => some .ALARM11
  | "alarm12" => some .ALARM12
  | "alarm13" => some .ALARM13
  | _ => none

/-- NotificationSound(value): enum member by value. -/
def NotificationSound.ofValue : String → Option NotificationSound
  | "bicycle" => some .BICYCLE
  | "car" => some .CAR
  | "cash" => some .CASH
  | "cat" => some .CAT
  | "dog" => some .DOG
  | "dog2" => some .DOG2
  | "energy" => some .ENERGY
  | "knock-knock" => some .KNOCK_KNOCK
  | "letter_email" => some .LETTER_EMAIL
  | "lose1" => some .LOSE1
  | "lose2" => some .LOSE2
  | "negative1" => some .NETGATIVE1
  | "negative2" => some .NETGATIVE2
  | "negative3" => some .NETGATIVE3
  | "negative4" => some .NETGATIVE4
  | "negative5" => some .NETGATIVE5
  | "notification" => some .NOTIFICATION
  | "notification2" => some .NOTIFICATION2
  | "notification3" => some .NOTIFICATION3
  | "notification4" => some .NOTIFICATION4
  | "open_door" => some .OPEN_DOOR
  | "positive1" => some .POSITIVE1
  | "positive2" => some .POSITIVE2
  | "positive3" => some .POSITIVE3
  | "positive4" => some .POSITIVE4
  | "positive5" => some .POSITIVE5
  | "positive6" => some .POSITIVE6
  | "statistic" => some .STATISTIC
  | "thunder" => some .THUNDER
  | "water1" => some .WATER1
  | "water2" => some .WATER2
  | "win" => some .WIN
  | "win2" => some .WIN2
  | "wind" => some .WIND
  | "wind_short" => some .WIND_SHORT
  | _ => none

/-- Deserialize a sound identifier of the union
`AlarmSound | NotificationSound`: the variants are tried in annotation
order. -/
def parseSoundId (s : String) : Except String SoundId :=
  match AlarmSound.ofValue s with
  | some a => .ok (.inl a)
  | none =>
      match NotificationSound.ofValue s with
      | some n => .ok (.inr n)
      | none => .error "invalid sound"

/-- The repeat field: missing means the default 1. -/
def parseRepeat : Option Json → Except String Int
  | none => .ok 1
  | some (.num n) => .ok n
  | some _ => .error "invalid repeat"

/-- The sound identifier is read from the alias "id" and, failing that,
from the field name "sound" (allow_deserialization_not_by_alias). -/
def parseSoundField : Option Json → Except String SoundId
  | some (.str s) => parseSoundId s
  | some _ => .error "invalid sound"
  | none => .error "missing field id"

/-- Sound.from_dict followed by the dataclass constructor, whose
`__post_init__` infers the category when it was not supplied. -/
def Sound.fromDict (j : Json) : Except String Sound :=
  match parseCategory (pyDictGet j "category"),
      parseRepeat (pyDictGet j "repeat"),
      parseSoundField ((pyDictGet j "id").orElse (fun _ => pyDictGet j "sound"))
      with
  | .ok cat, .ok rep, .ok sv => .ok (mkSound cat rep sv)
  | .error e, _, _ => .error e
  | _, .error e, _ => .error e
  | _, _, .error e => .error e

/-- The cycles field: missing means the default 1. -/
def parseCycles : Option Json → Except String Int
  | none => .ok 1
  | some (.num n) => .ok n
  | some _ => .error "invalid cycles"

/-- The optional sound of a Model. -/
def parseOptSound : Option Json → Except String (Option Sound)
  | none => .ok none
  | some .null => .ok none
  | some sj =>
      match Sound.fromDict sj with
      | .ok s => .ok (some s)
      | .error e => .error e

/-- The required frames list of a Model. -/
def parseFramesField : Option Json → Except String (List Frame)
  | some (.arr xs) => parseFrames xs
  | some _ => .error "invalid frames"
  | none => .error "missing field frames"

/-- Model.from_dict. -/
def Model.fromDict (j : Json) : Except String Model :=
  match parseCycles (pyDictGet j "cycles"),
      parseFramesField (pyDictGet j "frames"),
      parseOptSound (pyDictGet j "sound") with
  | .ok cyc, .ok fs, .ok snd =>
      .ok { cycles := cyc, frames := fs, sound := snd }
  | .error e, _, _ => .error e
  | _, .error e, _ => .error e
  | _, _, .error e => .error e

/-- Deserialize the optional icon type by enum value. -/
def parseIconType : Option Json → Except String (Option NotificationIconType)
  | none => .ok none
  | some .null => .ok none
  | some (.str "alert") => .ok (some .ALERT)
  | some (.str "info") => .ok (some .INFO)
  | some (.str "none") => .ok (some .NONE)
  | some _ => .error "invalid icon_type"

/-- Deserialize the optional priority by enum value. -/
def parsePriority : Option Json → Except String (Option NotificationPriority)
  | none => .ok none
  | some .null => .ok none
  | some (.str "critical") => .ok (some .CRITICAL)
  | some (.str "info") => .ok (some .INFO)
  | some (.str "warning") => .ok (some .WARNING)
  | some _ => .error "invalid priority"

/-- Deserialize the optional notification type by enum value. -/
def parseNotificationType :
    Option Json → Except String (Option NotificationType)
  | none => .ok none
  | some .null => .ok none
  | some (.str "internal") => .ok (some .INTERNAL)
  | some (.str "external") => .ok (some .EXTERNAL)
  | some _ => .error "invalid type"

/-- The required model field of a Notification. -/
def parseModelField : Option Json → Except String Model
  | some mj => Model.fromDict mj
  | none => .error "missing field model"

/-- Notification.from_dict: no allow_deserialization_not_by_alias here, so
the id and type are read from their alias keys only. -/
def Notification.fromDict (j : Json) : Except String Notification :=
  match parseOptStr (pyDictGet j "created"),
      parseOptStr (pyDictGet j "expiration_date"),
      parseIconType (pyDictGet j "icon_type"),
      parseOptInt (pyDictGet j "life_time"),
      parseModelField (pyDictGet j "model"),
      parseOptInt (pyDictGet j "id"),
      parseNotificationType (pyDictGet j "type"),
      parsePriority (pyDictGet j "priority") with
  | .ok created, .ok exp, .ok it, .ok lt, .ok m, .ok nid, .ok nt, .ok pr =>
      .ok { created := created, expiration_date := exp, icon_type := it,
            life_time := lt, model := m, notification_id := nid,
            notification_type := nt, priority := pr }
  | .error e, _, _, _, _, _, _, _ => .error e
  | _, .error e, _, _, _, _, _, _ => .error e
  | _, _, .error e, _, _, _, _, _ => .error e
  | _, _, _, .error e, _, _, _, _ => .error e
  | _, _, _, _, .error e, _, _, _ => .error e
  | _, _, _, _, _, .error e, _, _ => .error e
  | _, _, _, _, _, _, .error e, _ => .error e
  | _, _, _, _, _, _, _, .error e => .error e

/-- A Sound value as Python can actually construct it: `__post_init__`
always leaves the category set (either supplied or inferred). -/
def Sound.postInitValid (s : Sound) : Bool := s.category.isSome

/-- All Sound values nested in a Model are post-init valid. -/
def Model.soundValid (m : Model) : Bool :=
  match m.sound with
  | none => true
  | some s => s.postInitValid

/-- All Sound values nested in a Notification are post-init valid. -/
def Notification.soundValid (n : Notification) : Bool := n.model.soundValid

/-! ### Round trip of the wire form -/

theorem parseIntList_map (l : List Int) :
    parseIntList (l.map Json.num) = .ok l := by
  induction l with
  | nil => rfl
  | cons x xs ih => simp [List.map, parseIntList, ih]

theorem simple_fromDict_toDict (s : Simple) :
    Simple.fromDict s.toDict = .ok s := by
  obtain ⟨icon, text⟩ := s
  cases icon with
  | none => rfl
  | some iv => cases iv <;> rfl

theorem goalData_fromDict_toDict (g : GoalData) :
    GoalData.fromDict g.toDict = .ok g := by
  obtain ⟨c, e, st, u⟩ := g
  cases u <;> rfl

theorem chart_fromDict_toDict (c : Chart) :
    Chart.fromDict c.toDict = .ok c := by
  obtain ⟨data⟩ := c
  have h := parseIntList_map data
  simp [Chart.fromDict, Chart.toDict, pyDictGet, List.lookup, Option.orElse, h]

theorem chart_fromDict_goalDict (g : Goal) :
    Chart.fromDict g.toDict = .error "missing field chartData" := rfl

theorem chart_fromDict_simpleDict (s : Simple) :
    Chart.fromDict s.toDict = .error "missing field chartData" := rfl

theorem goal_fromDict_simpleDict (s : Simple) :
    Goal.fromDict s.toDict = .error "missing field goalData" := rfl

theorem goal_fromDict_toDict (g : Goal) : Goal.fromDict g.toDict = .ok g := by
  obtain ⟨d, icon⟩ := g
  have hd := goalData_fromDict_toDict d
  cases icon with
  | none =>
      simp [Goal.fromDict, Goal.toDict, pyDictGet, List.lookup, Option.orElse,
        serIcon, parseIcon, hd]
  | some iv =>
      cases iv <;>
        simp [Goal.fromDict, Goal.toDict, pyDictGet, List.lookup, Option.orElse,
          serIcon, parseIcon, hd]

theorem frame_fromDict_toDict (fr : Frame) :
    Frame.fromDict fr.toDict = .ok fr := by
  cases fr with
  | chart c => simp [Frame.fromDict, Frame.toDict, chart_fromDict_toDict c]
  | goal g =>
      simp [Frame.fromDict, Frame.toDict, chart_fromDict_goalDict g,
        goal_fromDict_toDict g]
  | simple s =>
      simp [Frame.fromDict, Frame.toDict, chart_fromDict_simpleDict s,
        goal_fromDict_simpleDict s, simple_fromDict_toDict s]

theorem parseFrames_map (fs : List Frame) :
    parseFrames (fs.map Frame.toDict) = .ok fs := by
  induction fs with
  | nil => rfl
  | cons f fs ih =>
      simp [List.map, parseFrames, frame_fromDict_toDict f, ih]

theorem parseSoundId_value (s : SoundId) : parseSoundId s.value = .ok s := by
  rcases s with a | n
  · cases a <;> rfl
  · cases n <;> rfl

theorem sound_fromDict_toDict (s : Sound) (h : s.postInitValid = true) :
    Sound.fromDict s.toDict = .ok s := by
  obtain ⟨cat, rep, sv⟩ := s
  obtain ⟨c, rfl⟩ : ∃ c, cat = some c := by
    cases cat with
    | none => simp [Sound.postInitValid] at h
    | some c => exact ⟨c, rfl⟩
  have hsv := parseSoundId_value sv
  cases c <;>
    simp [Sound.fromDict, Sound.toDict, pyDictGet, List.lookup, Option.orElse,
      parseCategory, parseRepeat, parseSoundField, NotificationSoundCategory.value,
      hsv, mkSound]

theorem optField_none (k : String) : optField k none = [] := rfl

theorem optField_some (k : String) (v : Json) :
    optField k (some v) = [(k, v)] := rfl

/-- A serialized Sound is a JSON object, so `parseOptSound` dispatches it to
`Sound.fromDict`. -/
theorem parseOptSound_toDict (s : Sound) :
    parseOptSound (some s.toDict) =
      match Sound.fromDict s.toDict with
      | .ok s0 => .ok (some s0)
      | .error e => .error e := rfl

theorem model_fromDict_toDict (m : Model) (h : m.soundValid = true) :
    Model.fromDict m.toDict = .ok m := by
  obtain ⟨cyc, fs, snd⟩ := m
  have hf := parseFrames_map fs
  cases snd with
  | none =>
      simp [Model.fromDict, Model.toDict, pyDictGet, List.lookup,
        parseCycles, parseFramesField, parseOptSound, hf]
  | some s =>
      have hs : Sound.fromDict s.toDict = .ok s :=
        sound_fromDict_toDict s (by simpa [Model.soundValid] using h)
      simp [Model.fromDict, Model.toDict, pyDictGet, List.lookup,
        parseCycles, parseFramesField, parseOptSound_toDict, hf, hs]

theorem lookup_optField_skip (key k : String) (v : Option Json)
    (rest : List (String × Json)) (h : (key == k) = false) :
    List.lookup key (optField k v ++ rest) = List.lookup key rest := by
  cases v <;> simp [optField, List.lookup, h]

theorem lookup_optField_skip_last (key k : String) (v : Option Json)
    (h : (key == k) = false) :
    List.lookup key (optField k v) = none := by
  cases v <;> simp [optField, List.lookup, h]

theorem lookup_cons_skip (key k : String) (x : Json)
    (rest : List (String × Json)) (h : (key == k) = false) :
    List.lookup key ((k, x) :: rest) = List.lookup key rest := by
  simp [List.lookup, h]

theorem lookup_optField_hit (k : String) (v : Json)
    (rest : List (String × Json)) :
    List.lookup k (optField k (some v) ++ rest) = some v := by
  simp [optField, List.lookup]

theorem lookup_cons_hit (k : String) (x : Json)
    (rest : List (String × Json)) :
    List.lookup k ((k, x) :: rest) = some x := by
  simp [List.lookup]

theorem toDict_lookup_created (n : Notification) :
    pyDictGet n.toDict "created" = n.created.map Json.str := by
  simp only [Notification.toDict, pyDictGet]
  cases hc : n.created with
  | some x =>
      rw [Option.map_some', lookup_optField_hit]
  | none =>
      rw [Option.map_none', optField_none, List.nil_append,
        lookup_optField_skip _ _ _ _ (by rfl),
        lookup_optField_skip _ _ _ _ (by rfl),
        lookup_optField_skip _ _ _ _ (by rfl),
        lookup_cons_skip _ _ _ _ (by rfl),
        lookup_optField_skip _ _ _ _ (by rfl),
        lookup_optField_skip _ _ _ _ (by rfl),
        lookup_optField_skip_last _ _ _ (by rfl)]

theorem toDict_lookup_expiration (n : Notification) :
    pyDictGet n.toDict "expiration_date" = n.expiration_date.map Json.str := by
  simp only [Notification.toDict, pyDictGet]
  rw [lookup_optField_skip _ _ _ _ (by rfl)]
  cases hc : n.expiration_date with
  | some x =>
      rw [Option.map_some', lookup_optField_hit]
  | none =>
      rw [Option.map_none', optField_none, List.nil_append,
        lookup_optField_skip _ _ _ _ (by rfl),
        lookup_optField_skip _ _ _ _ (by rfl),
        lookup_cons_skip _ _ _ _ (by rfl),
        lookup_optField_skip _ _ _ _ (by rfl),
        lookup_optField_skip _ _ _ _ (by rfl),
        lookup_optField_skip_last _ _ _ (by rfl)]

theorem toDict_lookup_icon_type (n : Notification) :
    pyDictGet n.toDict "icon_type" =
      n.icon_type.map (fun v => Json.str v.value) := by
  simp only [Notification.toDict, pyDictGet]
  rw [lookup_optField_skip _ _ _ _ (by rfl),
    lookup_optField_skip _ _ _ _ (by rfl)]
  cases hc : n.icon_type with
  | some x =>
      rw [Option.map_some', lookup_optField_hit]
  | none =>
      rw [Option.map_none', optField_none, List.nil_append,
        lookup_optField_skip _ _ _ _ (by rfl),
        lookup_cons_skip _ _ _ _ (by rfl),
        lookup_optField_skip _ _ _ _ (by rfl),
        lookup_optField_skip _ _ _ _ (by rfl),
        lookup_optField_skip_last _ _ _ (by rfl)]

theorem toDict_lookup_life_time (n : Notification) :
    pyDictGet n.toDict "life_time" = n.life_time.map Json.num := by
  simp only [Notification.toDict, pyDictGet]
  rw [lookup_optField_skip _ _ _ _ (by rfl),
    lookup_optField_skip _ _ _ _ (by rfl),
    lookup_optField_skip _ _ _ _ (by rfl)]
  cases hc : n.life_time with
  | some x =>
      rw [Option.map_some', lookup_optField_hit]
  | none =>
      rw [Option.map_none', optField_none, List.nil_append,
        lookup_cons_skip _ _ _ _ (by rfl),
        lookup_optField_skip _ _ _ _ (by rfl),
        lookup_optField_skip _ _ _ _ (by rfl),
        lookup_optField_skip_last _ _ _ (by rfl)]

theorem toDict_lookup_model (n : Notification) :
    pyDictGet n.toDict "model" = some n.model.toDict := by
  simp only [Notification.toDict, pyDictGet]
  rw [lookup_optField_skip _ _ _ _ (by rfl),
    lookup_optField_skip _ _ _ _ (by rfl),
    lookup_optField_skip _ _ _ _ (by rfl),
    lookup_optField_skip _ _ _ _ (by rfl),
    lookup_cons_hit]

theorem toDict_lookup_id (n : Notification) :
    pyDictGet n.toDict "id" = n.notification_id.map Json.num := by
  simp only [Notification.toDict, pyDictGet]
  rw [lookup_optField_skip _ _ _ _ (by rfl),
    lookup_optField_skip _ _ _ _ (by rfl),
    lookup_optField_skip _ _ _ _ (by rfl),
    lookup_optField_skip _ _ _ _ (by rfl),
    lookup_cons_skip _ _ _ _ (by rfl)]
  cases hc : n.notification_id with
  | some x =>
      rw [Option.map_some', lookup_optField_hit]
  | none =>
      rw [Option.map_none', optField_none, List.nil_append,
        lookup_optField_skip _ _ _ _ (by rfl),
        lookup_optField_skip_last _ _ _ (by rfl)]

theorem toDict_lookup_type (n : Notification) :
    pyDictGet n.toDict "type" =
      n.notification_type.map (fun v => Json.str v.value) := by
  simp only [Notification.toDict, pyDictGet]
  rw [lookup_optField_skip _ _ _ _ (by rfl),
    lookup_optField_skip _ _ _ _ (by rfl),
    lookup_optField_skip _ _ _ _ (by rfl),
    lookup_optField_skip _ _ _ _ (by rfl),
    lookup_cons_skip _ _ _ _ (by rfl),
    lookup_optField_skip _ _ _ _ (by rfl)]
  cases hc : n.notification_type with
  | some x =>
      rw [Option.map_some', lookup_optField_hit]
  | none =>
      rw [Option.map_none', optField_none, List.nil_append,
        lookup_optField_skip_last _ _ _ (by rfl)]

theorem toDict_lookup_priority (n : Notification) :
    pyDictGet n.toDict "priority" =
      n.priority.map (fun v => Json.str v.value) := by
  simp only [Notification.toDict, pyDictGet]
  rw [lookup_optField_skip _ _ _ _ (by rfl),
    lookup_optField_skip _ _ _ _ (by rfl),
    lookup_optField_skip _ _ _ _ (by rfl),
    lookup_optField_skip _ _ _ _ (by rfl),
    lookup_cons_skip _ _ _ _ (by rfl),
    lookup_optField_skip _ _ _ _ (by rfl),
    lookup_optField_skip _ _ _ _ (by rfl)]
  cases hc : n.priority with
  | some x => rw [Option.map_some']; exact lookup_optField_hit _ _ []
  | none => rw [Option.map_none', optField_none]; rfl

theorem parseOptStr_ser (v : Option String) :
    parseOptStr (v.map Json.str) = .ok v := by cases v <;> rfl

theorem parseOptInt_ser (v : Option Int) :
    parseOptInt (v.map Json.num) = .ok v := by cases v <;> rfl

theorem parseIconType_ser (v : Option NotificationIconType) :
    parseIconType (v.map (fun x => Json.str x.value)) = .ok v := by
  cases v with
  | none => rfl
  | some x => cases x <;> rfl

theorem parsePriority_ser (v : Option NotificationPriority) :
    parsePriority (v.map (fun x => Json.str x.value)) = .ok v := by
  cases v with
  | none => rfl
  | some x => cases x <;> rfl

theorem parseNotificationType_ser (v : Option NotificationType) :
    parseNotificationType (v.map (fun x => Json.str x.value)) = .ok v := by
  cases v with
  | none => rfl
  | some x => cases x <;> rfl

theorem notification_fromDict_toDict (n : Notification)
    (h : n.soundValid = true) :
    Notification.fromDict n.toDict = .ok n := by
  have hm : parseModelField (pyDictGet n.toDict "model") = .ok n.model := by
    rw [toDict_lookup_model]
    simpa [parseModelField] using
      model_fromDict_toDict n.model (by simpa [Notification.soundValid] using h)
  simp only [Notification.fromDict, toDict_lookup_created,
    toDict_lookup_expiration, toDict_lookup_icon_type, toDict_lookup_life_time,
    toDict_lookup_id, toDict_lookup_type, toDict_lookup_priority, hm,
    parseOptStr_ser, parseOptInt_ser, parseIconType_ser, parsePriority_ser,
    parseNotificationType_ser]

/-- A notification with a single text frame, all optional fields left
unset. -/
def unsetFieldsNotification : Notification :=
  { model := { frames := [Frame.simple { text := "hi" }] } }

/-- C6, counterexample to the claim as stated: serializing a notification
does NOT omit every optional field left unset.  omit_none is configured on
Notification only, so while the unset envelope fields (life_time and the
rest) are omitted, the unset optional fields of nested dataclasses are
emitted as explicit nulls: here the model carries ("sound", null) and the
frame carries ("icon", null). -/
theorem c6_nested_null_counterexample :
    unsetFieldsNotification.model.sound = none ∧
    Notification.toDict unsetFieldsNotification =
      Json.obj [("model", Json.obj
        [("cycles", Json.num 1),
         ("frames", Json.arr
           [Json.obj [("icon", Json.null), ("text", Json.str "hi")]]),
         ("sound", Json.null)])] := ⟨rfl, rfl⟩

/-- C6 (amended): serializing a Notification emits the aliased wire keys —
"id" and "type" on the envelope exactly when those fields are set (the
semantic field names never appear), "chartData" for a chart frame and
"goalData" for a goal frame — and omits the unset optional fields of the
envelope itself (omit_none), while unset optional fields of nested
dataclasses serialize as explicit nulls; deserializing the wire form of
any notification whose sounds carry their post-init category reconstructs
the same value. -/
theorem c6_wire_roundtrip (n : Notification) :
    (pyDictGet n.toDict "id" = n.notification_id.map Json.num ∧
     pyDictGet n.toDict "type" =
       n.notification_type.map (fun v => Json.str v.value) ∧
     pyDictGet n.toDict "life_time" = n.life_time.map Json.num ∧
     pyDictGet n.toDict "notification_id" = none ∧
     pyDictGet n.toDict "notification_type" = none) ∧
    (∀ c : Chart,
      pyDictGet (Frame.chart c).toDict "chartData" =
        some (Json.arr (c.data.map Json.num)) ∧
      pyDictGet (Frame.chart c).toDict "data" = none) ∧
    (∀ g : Goal,
      pyDictGet (Frame.goal g).toDict "goalData" = some g.data.toDict ∧
      pyDictGet (Frame.goal g).toDict "data" = none) ∧
    (n.model.sound = none → pyDictGet n.model.toDict "sound" = some Json.null) ∧
    (n.soundValid = true → Notification.fromDict n.toDict = .ok n) := by
  refine ⟨⟨toDict_lookup_id n, toDict_lookup_type n, toDict_lookup_life_time n,
      ?_, ?_⟩, fun c => ⟨rfl, rfl⟩, fun g => ⟨rfl, rfl⟩, ?_, ?_⟩
  · simp only [Notification.toDict, pyDictGet]
    rw [lookup_optField_skip _ _ _ _ (by rfl),
      lookup_optField_skip _ _ _ _ (by rfl),
      lookup_optField_skip _ _ _ _ (by rfl),
      lookup_optField_skip _ _ _ _ (by rfl),
      lookup_cons_skip _ _ _ _ (by rfl),
      lookup_optField_skip _ _ _ _ (by rfl),
      lookup_optField_skip _ _ _ _ (by rfl),
      lookup_optField_skip_last _ _ _ (by rfl)]
  · simp only [Notification.toDict, pyDictGet]
    rw [lookup_optField_skip _ _ _ _ (by rfl),
      lookup_optField_skip _ _ _ _ (by rfl),
      lookup_optField_skip _ _ _ _ (by rfl),
      lookup_optField_skip _ _ _ _ (by rfl),
      lookup_cons_skip _ _ _ _ (by rfl),
      lookup_optField_skip _ _ _ _ (by rfl),
      lookup_optField_skip _ _ _ _ (by rfl),
      lookup_optField_skip_last _ _ _ (by rfl)]
  · intro h
    have hbase : pyDictGet n.model.toDict "sound" =
        some (match n.model.sound with
          | none => Json.null
          | some s => s.toDict) := rfl
    rw [hbase, h]
  · exact notification_fromDict_toDict n

/-- A concrete notification exercising all three frame kinds, an inferred
sound category, and both set and unset optional fields. -/
def sampleNotification : Notification :=
  { created := some "2016-06-14T18:27:13Z",
    icon_type := some NotificationIconType.INFO,
    model := { cycles := 2,
               frames := [Frame.simple { icon := some (Sum.inl 120), text := "hello" },
                          Frame.goal { data :=
                            { current := 1, end_ := 10, start := 0,
                              unit := some "%" } },
                          Frame.chart { data := [1, 2, 3] }],
               sound := some (mkSound none 1 (Sum.inl AlarmSound.ALARM5)) },
    notification_id := some 7,
    notification_type := some NotificationType.INTERNAL,
    priority := some NotificationPriority.CRITICAL }

theorem c6_wire_roundtrip_witness :
    sampleNotification.soundValid = true ∧
    Notification.fromDict (Notification.toDict sampleNotification) =
      .ok sampleNotification :=
  ⟨rfl, (c6_wire_roundtrip sampleNotification).2.2.2.2 rfl⟩

/-! ## device.py: notification queue dismissal -/

/-- Python truthiness of an optional notification id: None and 0 are
falsy. -/
def idTruthy : Option Int → Bool
  | none => false
  | some i => !(i == 0)

/-- The loop body of dismiss_all_notifications: walk the (already
reversed) queue and collect a DELETE for every entry whose notification_id
is truthy, in order. -/
def dismissLoop : List Notification → List Int
  | [] => []
  | n :: rest =>
      (match n.notification_id with
        | some i => if i == 0 then [] else [i]
        | none => []) ++ dismissLoop rest

/-- dismiss_all_notifications: fetch the queue once; if it is falsy
(empty) return without dismissing anything; otherwise dismiss the entries
of the reversed queue.  The result is the ordered list of notification ids
the method issues DELETE requests for. -/
def dismissAllRequests (queue : List Notification) : List Int :=
  if queue.isEmpty then [] else dismissLoop queue.reverse

/-- dismiss_current_notification: the current notification (None when the
endpoint returned a falsy body) is dismissed only when present with a
truthy id. -/
def dismissCurrentRequests (current : Option Notification) : List Int :=
  match current with
  | none => []
  | some n =>
      match n.notification_id with
      | some i => if i == 0 then [] else [i]
      | none => []

theorem dismissLoop_eq (l : List Notification) :
    dismissLoop l =
      (l.filter (fun n => idTruthy n.notification_id)).map
        (fun n => n.notification_id.getD 0) := by
  induction l with
  | nil => rfl
  | cons n rest ih =>
      cases hid : n.notification_id with
      | none => simp [dismissLoop, List.filter_cons, idTruthy, hid, ih]
      | some i =>
          by_cases hz : i = 0

          · simp [dismissLoop, List.filter_cons, idTruthy, hid, hz, ih]
          · simp [dismissLoop, List.filter_cons, idTruthy, hid, hz, ih]

theorem dismissLoop_append (a b : List Notification) :
    dismissLoop (a ++ b) = dismissLoop a ++ dismissLoop b := by
  induction a with
  | nil => rfl
  | cons n rest ih => simp [dismissLoop, ih]

theorem dismissAllRequests_eq (queue : List Notification) :
    dismissAllRequests queue =
      ((queue.filter (fun n => idTruthy n.notification_id)).map
        (fun n => n.notification_id.getD 0)).reverse := by
  cases queue with
  | nil => rfl
  | cons n rest =>
      show dismissLoop (n :: rest).reverse = _
      rw [List.reverse_cons, dismissLoop_append, dismissLoop_eq rest.reverse,
        dismissLoop_eq [n], List.filter_reverse, List.map_reverse,
        List.filter_cons]
      cases h : idTruthy n.notification_id with
      | true => simp [h]
      | false => simp [h]

/-- C7: dismiss-all consumes the queue fetched by its single GET and
issues its dismissals in strictly reverse order relative to the order the
queue was returned in: the issued id sequence is the reverse of the
(truthy-id) queue entries; when every entry carries a usable id it is
exactly the reverse of the whole queue, entry N first and entry 1 last;
an empty queue issues no dismissals. -/
theorem c7_dismiss_all_reverse (queue : List Notification) :
    dismissAllRequests [] = [] ∧
    dismissAllRequests queue =
      ((queue.filter (fun n => idTruthy n.notification_id)).map
        (fun n => n.notification_id.getD 0)).reverse ∧
    ((∀ n ∈ queue, idTruthy n.notification_id = true) →
      dismissAllRequests queue =
        (queue.map (fun n => n.notification_id.getD 0)).reverse) := by
  refine ⟨rfl, dismissAllRequests_eq queue, fun h => ?_⟩
  rw [dismissAllRequests_eq queue, List.filter_eq_self.mpr h]

theorem c7_dismiss_all_reverse_witness :
    dismissAllRequests
      [{ model := { frames := [] }, notification_id := some 1 },
       { model := { frames := [] }, notification_id := some 2 },
       { model := { frames := [] }, notification_id := some 3 }] =
      [3, 2, 1] := by
  rw [(c7_dismiss_all_reverse
    [{ model := { frames := [] }, notification_id := some 1 },
     { model := { frames := [] }, notification_id := some 2 },
     { model := { frames := [] }, notification_id := some 3 }]).2.2
    (by decide)]
  rfl

/-- C10: both dismissal methods issue a DELETE only for notifications
whose id is present and non-zero.  Every issued id comes from an entry
carrying exactly that non-zero id; an entry whose id is absent or zero is
silently skipped: prepending such an entry to the queue leaves dismiss-all
unchanged, and dismiss-current issues nothing for it (nor when there is no
current notification), while a present non-zero id is dismissed. -/
theorem c10_dismiss_skips_missing_ids (queue : List Notification)
    (n : Notification) :
    (∀ r ∈ dismissAllRequests queue, r ≠ 0 ∧
      ∃ m ∈ queue, m.notification_id = some r) ∧
    ((n.notification_id = none ∨ n.notification_id = some 0) →
      dismissAllRequests (n :: queue) = dismissAllRequests queue ∧
      dismissCurrentRequests (some n) = []) ∧
    (∀ i : Int, i ≠ 0 → n.notification_id = some i →
      dismissCurrentRequests (some n) = [i]) ∧
    dismissCurrentRequests none = [] := by
  refine ⟨?_, ?_, ?_, rfl⟩
  · intro r hr
    rw [dismissAllRequests_eq] at hr
    rw [List.mem_reverse, List.mem_map] at hr
    obtain ⟨m, hm, hval⟩ := hr
    rw [List.mem_filter] at hm
    obtain ⟨hmem, htr⟩ := hm
    cases hid : m.notification_id with
    | none => rw [hid] at htr; simp [idTruthy] at htr
    | some i =>
        rw [hid] at htr hval
        simp only [idTruthy, Bool.not_eq_true'] at htr
        simp only [Option.getD_some] at hval
        subst hval
        refine ⟨?_, m, hmem, hid⟩
        intro h0
        rw [h0] at htr
        simp at htr
  · intro hid
    have hskip : (match n.notification_id with
        | some i => if i == 0 then ([] : List Int) else [i]
        | none => []) = [] := by
      rcases hid with h | h <;> simp [h]
    constructor
    · rw [dismissAllRequests_eq, dismissAllRequests_eq]
      have : List.filter (fun m => idTruthy m.notification_id) (n :: queue) =
          List.filter (fun m => idTruthy m.notification_id) queue := by
        rw [List.filter_cons]
        rcases hid with h | h <;> simp [h, idTruthy]
      rw [this]
    · simp only [dismissCurrentRequests]
      exact hskip
  · intro i hi hid
    simp [dismissCurrentRequests, hid, hi]

theorem c10_dismiss_skips_missing_ids_witness :
    dismissAllRequests
      [{ model := { frames := [] }, notification_id := none },
       { model := { frames := [] }, notification_id := some 5 }] =
      dismissAllRequests
        [{ model := { frames := [] }, notification_id := some 5 }] ∧
    dismissCurrentRequests
      (some { model := { frames := [] }, notification_id := some 0 }) = [] ∧
    dismissCurrentRequests
      (some { model := { frames := [] }, notification_id := some 5 }) = [5] := by
  refine ⟨?_, ?_, ?_⟩
  · exact ((c10_dismiss_skips_missing_ids
      [{ model := { frames := [] }, notification_id := some 5 }]
      { model := { frames := [] }, notification_id := none }).2.1
      (Or.inl rfl)).1
  · exact ((c10_dismiss_skips_missing_ids []
      { model := { frames := [] }, notification_id := some 0 }).2.1
      (Or.inr rfl)).2
  · exact (c10_dismiss_skips_missing_ids []
      { model := { frames := [] }, notification_id := some 5 }).2.2.1
      5 (by decide) rfl

/-! ## device.py: response reshaping of the endpoint methods -/

/-- `d.get(key)` on a wire dict inside a `dict.update(...)` argument: the
stored value is JSON null when the key is absent (Python None). -/
def pyGetDefault (d : List (String × Json)) (key : String) : Json :=
  match d.lookup key with
  | some v => v
  | none => .null

/-- One keyword of a Python `dict.update`: replace the value in place if
the key exists, append the pair otherwise. -/
def dictSet : List (String × Json) → String → Json → List (String × Json)
  | [], k, v => [(k, v)]
  | (k0, v0) :: rest, k, v =>
      if k0 = k then (k, v) :: rest else (k0, v0) :: dictSet rest k v

/-- wifi():
`data.update(ip=data.get("ipv4"), rssi=data.get("signal_strength"))`. -/
def wifiReshape (d : List (String × Json)) : List (String × Json) :=
  dictSet (dictSet d "ip" (pyGetDefault d "ipv4"))
    "rssi" (pyGetDefault d "signal_strength")

/-- device(): the nested wifi payload is updated with
`mac=wifi.get("address"), ssid=wifi.get("essid"),
rssi=wifi.get("strength")` before parsing the Device model. -/
def deviceWifiReshape (d : List (String × Json)) : List (String × Json) :=
  dictSet (dictSet (dictSet d "mac" (pyGetDefault d "address"))
    "ssid" (pyGetDefault d "essid")) "rssi" (pyGetDefault d "strength")

/-- bluetooth(): `response.update(address=response.get("mac"))`. -/
def bluetoothReshape (d : List (String × Json)) : List (String × Json) :=
  dictSet d "address" (pyGetDefault d "mac")

theorem lookup_dictSet_self (d : List (String × Json)) (k : String)
    (v : Json) : (dictSet d k v).lookup k = some v := by
  induction d with
  | nil => simp [dictSet, List.lookup]
  | cons kv rest ih =>
      obtain ⟨k0, v0⟩ := kv
      by_cases h : k0 = k
      · simp [dictSet, h, List.lookup]
      · have hne : (k == k0) = false := by
          simp [beq_iff_eq]
          exact fun he => h he.symm
        simp [dictSet, h, List.lookup, hne, ih]

theorem lookup_dictSet_ne (d : List (String × Json)) (k k' : String)
    (v : Json) (h : k' ≠ k) : (dictSet d k v).lookup k' = d.lookup k' := by
  induction d with
  | nil =>
      have hne : (k' == k) = false := by simp [beq_iff_eq, h]
      simp [dictSet, List.lookup, hne]
  | cons kv rest ih =>
      obtain ⟨k0, v0⟩ := kv
      by_cases h0 : k0 = k
      · subst h0
        have hne : (k' == k0) = false := by simp [beq_iff_eq, h]
        simp [dictSet, List.lookup, hne]
      · simp only [dictSet, if_neg h0]
        by_cases hk : k' = k0
        · subst hk
          simp [List.lookup]
        · have hne : (k' == k0) = false := by simp [beq_iff_eq, hk]
          simp [List.lookup, hne, ih]

/-- C8, counterexample to the claim as stated: the wifi() endpoint does
not rename "essid" to "ssid" nor "strength" to "rssi".  On a wire object
carrying only those keys, the reshape leaves them untouched, produces no
"ssid" key at all, and fills "ip" and "rssi" with null from the absent
"ipv4" and "signal_strength" keys it actually reads. -/
theorem c8_wifi_reshape_counterexample :
    wifiReshape [("essid", Json.str "MyNet"), ("strength", Json.num 42)] =
      [("essid", Json.str "MyNet"), ("strength", Json.num 42),
       ("ip", Json.null), ("rssi", Json.null)] ∧
    (wifiReshape
      [("essid", Json.str "MyNet"),
       ("strength", Json.num 42)]).lookup "ssid" = none := ⟨rfl, rfl⟩

/-- C8 (amended): each reshape only copies wire keys to semantic keys and
leaves everything else untouched.  wifi() sets "ip" from "ipv4" and "rssi"
from "signal_strength"; the device() endpoint sets its nested wifi
payload keys "mac" from "address", "ssid" from "essid" and "rssi" from
"strength"; bluetooth() sets "address" from "mac". -/
theorem c8_endpoint_reshaping (d : List (String × Json)) (k : String) :
    ((wifiReshape d).lookup "ip" = some (pyGetDefault d "ipv4") ∧
     (wifiReshape d).lookup "rssi" = some (pyGetDefault d "signal_strength") ∧
     (k ≠ "ip" → k ≠ "rssi" → (wifiReshape d).lookup k = d.lookup k)) ∧
    ((deviceWifiReshape d).lookup "mac" = some (pyGetDefault d "address") ∧
     (deviceWifiReshape d).lookup "ssid" = some (pyGetDefault d "essid") ∧
     (deviceWifiReshape d).lookup "rssi" = some (pyGetDefault d "strength") ∧
     (k ≠ "mac" → k ≠ "ssid" → k ≠ "rssi" →
       (deviceWifiReshape d).lookup k = d.lookup k)) ∧
    ((bluetoothReshape d).lookup "address" = some (pyGetDefault d "mac") ∧
     (k ≠ "address" → (bluetoothReshape d).lookup k = d.lookup k)) := by
  refine ⟨⟨?_, ?_, ?_⟩, ⟨?_, ?_, ?_, ?_⟩, ⟨?_, ?_⟩⟩
  · rw [wifiReshape, lookup_dictSet_ne _ _ _ _ (by decide), lookup_dictSet_self]
  · rw [wifiReshape, lookup_dictSet_self]
  · intro h1 h2
    rw [wifiReshape, lookup_dictSet_ne _ _ _ _ h2, lookup_dictSet_ne _ _ _ _ h1]
  · rw [deviceWifiReshape, lookup_dictSet_ne _ _ _ _ (by decide),
      lookup_dictSet_ne _ _ _ _ (by decide), lookup_dictSet_self]
  · rw [deviceWifiReshape, lookup_dictSet_ne _ _ _ _ (by decide),
      lookup_dictSet_self]
  · rw [deviceWifiReshape, lookup_dictSet_self]
  · intro h1 h2 h3
    rw [deviceWifiReshape, lookup_dictSet_ne _ _ _ _ h3,
      lookup_dictSet_ne _ _ _ _ h2, lookup_dictSet_ne _ _ _ _ h1]
  · rw [bluetoothReshape, lookup_dictSet_self]
  · intro h1
    rw [bluetoothReshape, lookup_dictSet_ne _ _ _ _ h1]

theorem c8_endpoint_reshaping_witness :
    (wifiReshape [("ipv4", Json.str "192.168.1.2"),
      ("signal_strength", Json.num 77)]).lookup "ip" =
        some (Json.str "192.168.1.2") ∧
    (bluetoothReshape [("mac", Json.str "AA:BB")]).lookup "active" =
      ([("mac", Json.str "AA:BB")] :
        List (String × Json)).lookup "active" := by
  constructor
  · rw [(c8_endpoint_reshaping [("ipv4", Json.str "192.168.1.2"),
      ("signal_strength", Json.num 77)] "active").1.1]
    rfl
  · exact (c8_endpoint_reshaping [("mac", Json.str "AA:BB")] "active").2.2.2
      (by decide)

/-! ## Session ownership (identical in device.py and cloud.py) -/

/-- The session state of a client: the dataclass fields `session` (None
unless the caller supplied one) and `_close_session` (False by default).
Session handles are modelled as numbers. -/
structure ClientSessionState where
  session : Option Nat
  closeSession : Bool
deriving DecidableEq

/-- Constructing a client, with or without a caller-supplied session. -/
def mkClient (supplied : Option Nat) : ClientSessionState :=
  { session := supplied, closeSession := false }

/-- The start of `_request`: if the client has no session yet, create a
fresh aiohttp.ClientSession and mark it for closing. -/
def ensureSession (c : ClientSessionState) (fresh : Nat) :
    ClientSessionState :=
  match c.session with
  | none => { session := some fresh, closeSession := true }
  | some _ => c

/-- Run any number of requests; each entry of the list is the handle a
fresh session would get if one were created on that request. -/
def runRequests : ClientSessionState → List Nat → ClientSessionState
  | c, [] => c
  | c, f :: fs => runRequests (ensureSession c f) fs

/-- `close()` (also called by scoped exit): `if self.session and
self._close_session: await self.session.close()`.  Returns the handle of
the session it closes, if any. -/
def closeResult (c : ClientSessionState) : Option Nat :=
  match c.session, c.closeSession with
  | some s, true => some s
  | _, _ => none

theorem runRequests_supplied (x : Nat) (fs : List Nat) :
    runRequests (mkClient (some x)) fs = mkClient (some x) := by
  induction fs with
  | nil => rfl
  | cons f rest ih => simpa [runRequests, ensureSession, mkClient] using ih

/-- C9: a client given no session lazily creates one on its first request
and marks it owned, and close() then closes exactly that session (before
any request, close() closes nothing); a client given a caller-supplied
session keeps it unchanged across any number of requests and close()
never closes it. -/
theorem c9_session_ownership (s fresh : Nat) (fs rest : List Nat) :
    (runRequests (mkClient (some s)) fs).session = some s ∧
    (runRequests (mkClient (some s)) fs).closeSession = false ∧
    closeResult (runRequests (mkClient (some s)) fs) = none ∧
    closeResult (mkClient none) = none ∧
    runRequests (mkClient none) (fresh :: rest) =
      { session := some fresh, closeSession := true } ∧
    closeResult (runRequests (mkClient none) (fresh :: rest)) = some fresh := by
  have hs := runRequests_supplied s fs
  have hcreated : runRequests (mkClient none) (fresh :: rest) =
      { session := some fresh, closeSession := true } := by
    show runRequests (ensureSession (mkClient none) fresh) rest = _
    have : ensureSession (mkClient none) fresh =
        { session := some fresh, closeSession := true } := rfl
    rw [this]
    induction rest with
    | nil => rfl
    | cons f rest2 ih => simpa [runRequests, ensureSession] using ih
  rw [hs, hcreated]
  exact ⟨rfl, rfl, rfl, rfl, rfl, rfl⟩

end Demetriek
